import Mathlib

/-!
Shallow embedding of the AWS Glue job `sc360-reportrefresh-dev-all-regions.py`
(class `ReportRefresh`): the ordered stored-procedure execution orchestrator
with bounded retries, audit logging and SNS notification.

External collaborators (the Redshift data API, the RDS data API and the SNS
client) are modelled as oracles: functions from a call index to the outcome
the external system produces for that call.  Side effects (submissions,
sleeps, audit statement executions, notification publishes) are recorded in
explicit event traces.  Every definition follows the control flow of the
Python source; line numbers in comments refer to that file.
-/

namespace ReportRefresh

/-! ### Completion poller: `check_query_status` (source lines 224-246) -/

/-- Outcome of one `redshiftclient.describe_statement` call: either a response
carrying a `Status` and possibly an `Error` field, or a raised exception. -/
inductive DescribeResult where
  | ok (status : String) (error : Option String)
  | err (msg : String)
deriving DecidableEq

/-- The parts of a describe response the orchestrator reads:
`response_status['Status']` and `response_status.get('Error')`. -/
structure StatusResponse where
  status : String
  error : Option String
deriving DecidableEq

/-- Observable actions of the polling loop: a `describe_statement` call and a
`time.sleep` of the given number of seconds. -/
inductive PollEvent where
  | describe
  | sleep (seconds : Nat)
deriving DecidableEq

/-- The terminal-status test of the `while` loop at line 237:
`query_status not in ['FINISHED', 'FAILED', 'ABORTED']`. -/
def isTerminalStatus (s : String) : Bool :=
  s == "FINISHED" || s == "FAILED" || s == "ABORTED"

/-- The polling loop of `check_query_status` (lines 235-246), with explicit
fuel bounding the number of iterations (the Python loop runs unboundedly; a
`none` result models a run that has not reached a terminal status within the
fuel).  Each iteration: if the current `query_status` is terminal the loop
exits returning `(response_status, query_status)`; otherwise one
`describe_statement` call is made.  On a successful describe the status is
taken from the response and the loop continues immediately (no sleep).  On a
describe exception the response is replaced by a synthetic
`{Status: FAILED, Error: str(e)}`, `query_status` is set to `FAILED` and a
sleep of `sleepTime` seconds happens (lines 241-245). -/
def pollLoop (d : Nat → DescribeResult) (sleepTime : Nat) :
    Nat → Nat → String → Option StatusResponse →
      Option (StatusResponse × String) × List PollEvent
  | 0, _, qs, resp =>
      if isTerminalStatus qs then (resp.map (fun r => (r, qs)), []) else (none, [])
  | Nat.succ fuel, i, qs, resp =>
      if isTerminalStatus qs then (resp.map (fun r => (r, qs)), [])
      else
        match d i with
        | DescribeResult.ok s eo =>
            let r := pollLoop d sleepTime fuel (i + 1) s (some ⟨s, eo⟩)
            (r.1, PollEvent.describe :: r.2)
        | DescribeResult.err m =>
            let r := pollLoop d sleepTime fuel (i + 1) "FAILED" (some ⟨"FAILED", some m⟩)
            (r.1, PollEvent.describe :: PollEvent.sleep sleepTime :: r.2)

/-- `check_query_status` (lines 224-246): drive the polling loop from the
initial `query_status = 'SUBMITTED'`. -/
def check_query_status (d : Nat → DescribeResult) (sleepTime : Nat) (fuel : Nat) :
    Option (StatusResponse × String) × List PollEvent :=
  pollLoop d sleepTime fuel 0 "SUBMITTED" none

/-! ### Retry controller: `execute_sp_with_retries` (source lines 248-301) -/

/-- Outcome of one attempt at a unit, as `execute_sp_with_retries` observes
it: either an exception raised while submitting (or reading the submit
response), or the terminal `(query_status, response_status.get('Error'))`
pair produced by `check_query_status` for that submission. -/
inductive AttemptResult where
  | exc (msg : String)
  | term (status : String) (error : Option String)
deriving DecidableEq

/-- The `self.failed_sp_entry` dictionary built at lines 285-290. -/
structure FailedSpEntry where
  storedProcedureName : String
  error : String
  dataSource : String
  region : String
deriving DecidableEq

/-- The two instance attributes `execute_sp_with_retries` assigns.  `none`
models a Python attribute that has never been assigned (reading it raises
`AttributeError`). -/
structure ExecState where
  failed_sp_entry : Option FailedSpEntry
  error_message : Option String
deriving DecidableEq

/-- Observable actions of `execute_sp_with_retries`: one
`redshiftclient.execute_statement` submission of the named stored procedure,
and a `time.sleep` of the given number of seconds. -/
inductive ExecEvent where
  | submit (sp : String)
  | sleep (seconds : Nat)
deriving DecidableEq

/-- The characters after the first colon of a character list, or `none` when
no colon occurs. -/
def afterColonChars : List Char → Option (List Char)
  | [] => none
  | ch :: rest => if ch = ':' then some rest else afterColonChars rest

/-- Python `error_msg.split(":", 1)[-1] if ":" in error_msg else error_msg`
(line 291): everything after the first colon, or the whole string when it
has no colon. -/
def afterFirstColon (s : String) : String :=
  match afterColonChars s.data with
  | none => s
  | some rest => String.mk rest

/-- The `Data Source` field of the failure record (line 288):
`file_source if file_source == "SPDST" else "SPDST/Others"`. -/
def dataSourceLabel (fs : String) : String :=
  if fs = "SPDST" then fs else "SPDST/Others"

/-- The `while retries < self.RETRY_LIMIT` loop of `execute_sp_with_retries`
(lines 259-301).  `att n` is the outcome of attempt number `n` (0-based);
`fuel` equals `R - retries` throughout, so `fuel = 0` is exactly the loop
guard failing, which falls through to `return False` at line 301 without
touching the instance attributes.  A `FAILED` terminal status increments
`retries` and either sleeps 120 seconds and retries (line 281) or, on the
last allowed attempt, stores `failed_sp_entry` and `error_message` and
returns `False` (lines 285-292).  Any non-`FAILED` terminal status (that is,
`FINISHED` or `ABORTED`) takes the `else` branch at lines 293-296: it sets
`error_message` to `"Null"` and returns `True`.  An exception increments
`retries` and loops again with no sleep (lines 297-299). -/
def execLoop (R : Nat) (att : Nat → AttemptResult) (sp fs rg : String) :
    Nat → Nat → ExecState → Bool × ExecState × List ExecEvent
  | 0, _, st => (false, st, [])
  | Nat.succ fuel, retries, st =>
      match att retries with
      | AttemptResult.exc _ =>
          let r := execLoop R att sp fs rg fuel (retries + 1) st
          (r.1, r.2.1, ExecEvent.submit sp :: r.2.2)
      | AttemptResult.term status eo =>
          if status = "FAILED" then
            let errorMsg := eo.getD "Unknown error"
            if retries + 1 < R then
              let r := execLoop R att sp fs rg fuel (retries + 1) st
              (r.1, r.2.1, ExecEvent.submit sp :: ExecEvent.sleep 120 :: r.2.2)
            else
              (false,
               ⟨some ⟨sp, errorMsg, dataSourceLabel fs, rg⟩,
                some (afterFirstColon errorMsg)⟩,
               [ExecEvent.submit sp])
          else
            (true, { st with error_message := some "Null" }, [ExecEvent.submit sp])

/-- `execute_sp_with_retries` (lines 248-301): run the retry loop with
`retries = 0` and fuel `R = RETRY_LIMIT`. -/
def execute_sp_with_retries (R : Nat) (att : Nat → AttemptResult)
    (sp fs rg : String) (st : ExecState) : Bool × ExecState × List ExecEvent :=
  execLoop R att sp fs rg R 0 st

/-- The boolean outcome of the retry loop, which depends only on the retry
limit and the attempt oracle (not on the names or the incoming state). -/
def execOutcomeLoop (R : Nat) (att : Nat → AttemptResult) : Nat → Nat → Bool
  | 0, _ => false
  | Nat.succ fuel, retries =>
      match att retries with
      | AttemptResult.exc _ => execOutcomeLoop R att fuel (retries + 1)
      | AttemptResult.term status _ =>
          if status = "FAILED" then
            if retries + 1 < R then execOutcomeLoop R att fuel (retries + 1)
            else false
          else true

/-- Whether `execute_sp_with_retries` returns `True` for a given retry limit
and attempt oracle. -/
def execOutcome (R : Nat) (att : Nat → AttemptResult) : Bool :=
  execOutcomeLoop R att R 0

/-- The event trace of a run of the retry loop in which every submitted
attempt reports the terminal status `FAILED`: `n` submissions with a
120-second sleep between each consecutive pair. -/
def allFailEvents (sp : String) : Nat → List ExecEvent
  | 0 => []
  | Nat.succ n =>
      ExecEvent.submit sp ::
        (if n = 0 then [] else ExecEvent.sleep 120 :: allFailEvents sp n)

/-- Recognizes a submission event. -/
def isSubmitEvent : ExecEvent → Bool
  | ExecEvent.submit _ => true
  | _ => false

/-- Recognizes a sleep event. -/
def isSleepEvent : ExecEvent → Bool
  | ExecEvent.sleep _ => true
  | _ => false

theorem execLoop_fst (R : Nat) (att : Nat → AttemptResult) (sp fs rg : String) :
    ∀ fuel retries st,
      (execLoop R att sp fs rg fuel retries st).1 = execOutcomeLoop R att fuel retries := by
  intro fuel
  induction fuel with
  | zero => intro retries st; rfl
  | succ n ih =>
      intro retries st
      simp only [execLoop, execOutcomeLoop]
      cases att retries with
      | exc m => simpa using ih (retries + 1) st
      | term status eo =>
          by_cases hs : status = "FAILED"
          · by_cases hr : retries + 1 < R
            · simp [hs, hr, ih]
            · simp [hs, hr]
          · simp [hs]

theorem execute_fst (R : Nat) (att : Nat → AttemptResult) (sp fs rg : String)
    (st : ExecState) :
    (execute_sp_with_retries R att sp fs rg st).1 = execOutcome R att :=
  execLoop_fst R att sp fs rg R 0 st

theorem countP_allFailEvents_submit (sp : String) :
    ∀ n, (allFailEvents sp n).countP isSubmitEvent = n := by
  intro n
  induction n with
  | zero => rfl
  | succ m ih =>
      by_cases hm : m = 0
      · subst hm; rfl
      · simp only [allFailEvents, hm, if_neg hm, List.countP_cons]
        simp [isSubmitEvent, isSleepEvent, ih]

theorem countP_allFailEvents_sleep (sp : String) :
    ∀ n, (allFailEvents sp n).countP isSleepEvent = n - 1 := by
  intro n
  induction n with
  | zero => rfl
  | succ m ih =>
      cases m with
      | zero => rfl
      | succ p =>
          have h1 : allFailEvents sp (p + 2)
              = ExecEvent.submit sp :: ExecEvent.sleep 120 :: allFailEvents sp (p + 1) := by
            simp [allFailEvents]
          rw [h1]
          simp only [List.countP_cons, isSleepEvent, ih]
          simp [isSleepEvent]

theorem execLoop_allFail (R : Nat) (e : Nat → String) (sp fs rg : String) :
    ∀ fuel retries st, fuel + retries = R → 1 ≤ fuel →
      execLoop R (fun i => AttemptResult.term "FAILED" (some (e i))) sp fs rg fuel retries st
        = (false,
           ⟨some ⟨sp, e (R - 1), dataSourceLabel fs, rg⟩,
            some (afterFirstColon (e (R - 1)))⟩,
           allFailEvents sp fuel) := by
  intro fuel
  induction fuel with
  | zero => intro retries st h h1; omega
  | succ p ih =>
      intro retries st h _
      simp only [execLoop]
      cases p with
      | zero =>
          have hr : retries = R - 1 := by omega
          have hlt : ¬ (retries + 1 < R) := by omega
          simp [hlt, hr, allFailEvents, Option.getD]
          omega
      | succ q =>
          have hlt : retries + 1 < R := by omega
          have hrec := ih (retries + 1) st (by omega) (by omega)
          simp only [hlt, if_true, hrec]
          simp [allFailEvents]

theorem execLoop_finishAt (R k : Nat) (e : Nat → String) (sp fs rg : String) :
    ∀ fuel retries st, fuel + retries = R → retries < k → k ≤ R →
      execLoop R
          (fun i => if i = k - 1 then AttemptResult.term "FINISHED" none
                    else AttemptResult.term "FAILED" (some (e i))) sp fs rg fuel retries st
        = (true, { st with error_message := some "Null" }, allFailEvents sp (k - retries)) := by
  intro fuel
  induction fuel with
  | zero => intro retries st h hk hkR; omega
  | succ p ih =>
      intro retries st h hk hkR
      simp only [execLoop]
      by_cases hi : retries = k - 1
      · have h1 : k - (k - 1) = 1 := by omega
        simp [hi, h1, allFailEvents]
      · have hlt : retries + 1 < R := by omega
        have hrec := ih (retries + 1) st (by omega) (by omega) hkR
        have h2 : k - retries = (k - (retries + 1)) + 1 := by omega
        have h3 : ¬ (k - (retries + 1) = 0) := by omega
        simp only [hi, if_false, hlt, if_true, hrec]
        simp [h2, allFailEvents, h3]

/-- Retry loop in which every attempt raises a submission exception
(lines 297-299): the loop makes exactly `R` back-to-back submissions with no
sleep, then falls out of the `while` guard and returns `False` with the
instance attributes untouched (line 301). -/
theorem execLoop_allExc (R : Nat) (e : Nat → String) (sp fs rg : String) :
    ∀ fuel retries st,
      execLoop R (fun i => AttemptResult.exc (e i)) sp fs rg fuel retries st
        = (false, st, List.replicate fuel (ExecEvent.submit sp)) := by
  intro fuel
  induction fuel with
  | zero => intro retries st; rfl
  | succ p ih =>
      intro retries st
      simp only [execLoop, ih, List.replicate]

/-- C2.  For every retry limit `R ≥ 1`: a unit whose every attempt reaches
the terminal status `FAILED` (attempt `i` carrying engine error `e i`) is
submitted exactly `R` times, the trace is `allFailEvents sp R` — `R`
submissions with a 120-second `time.sleep` between each consecutive pair —
and the call returns `False` having stored the failure record
`{Stored Procedure Name = sp, Error = last error, Data Source = label of fs,
Region = rg}`; and a unit whose attempts `0..k-2` reach `FAILED` and whose
attempt `k-1` reaches `FINISHED` (for `1 ≤ k ≤ R`) is submitted exactly `k`
times and the call returns `True`. -/
theorem c2_retry_budget (R k : Nat) (hR : 1 ≤ R) (hk : 1 ≤ k) (hkR : k ≤ R)
    (e : Nat → String) (sp fs rg : String) (st : ExecState) :
    (execute_sp_with_retries R (fun i => AttemptResult.term "FAILED" (some (e i)))
        sp fs rg st
      = (false,
         ⟨some ⟨sp, e (R - 1), dataSourceLabel fs, rg⟩,
          some (afterFirstColon (e (R - 1)))⟩,
         allFailEvents sp R))
    ∧ (allFailEvents sp R).countP isSubmitEvent = R
    ∧ (allFailEvents sp R).countP isSleepEvent = R - 1
    ∧ (execute_sp_with_retries R
          (fun i => if i = k - 1 then AttemptResult.term "FINISHED" none
                    else AttemptResult.term "FAILED" (some (e i))) sp fs rg st
      = (true, { st with error_message := some "Null" }, allFailEvents sp k))
    ∧ (allFailEvents sp k).countP isSubmitEvent = k := by
  refine ⟨?_, countP_allFailEvents_submit sp R, countP_allFailEvents_sleep sp R, ?_, countP_allFailEvents_submit sp k⟩
  · exact execLoop_allFail R e sp fs rg R 0 st (by omega) hR
  · have h := execLoop_finishAt R k e sp fs rg R 0 st (by omega) (by omega) hkR
    simpa using h

/-- Witness for C2 at `R = 3`, `k = 2`, constant engine error `"E1"`. -/
theorem c2_retry_budget_witness :
    (execute_sp_with_retries 3 (fun _ => AttemptResult.term "FAILED" (some "E1"))
        "SP_X" "SPDST" "EMEA" ⟨none, none⟩
      = (false,
         ⟨some ⟨"SP_X", "E1", dataSourceLabel "SPDST", "EMEA"⟩,
          some (afterFirstColon "E1")⟩,
         allFailEvents "SP_X" 3))
    ∧ (allFailEvents "SP_X" 3).countP isSubmitEvent = 3
    ∧ (allFailEvents "SP_X" 3).countP isSleepEvent = 3 - 1
    ∧ (execute_sp_with_retries 3
          (fun i => if i = 2 - 1 then AttemptResult.term "FINISHED" none
                    else AttemptResult.term "FAILED" (some "E1")) "SP_X" "SPDST" "EMEA" ⟨none, none⟩
      = (true, { ExecState.mk none none with error_message := some "Null" },
         allFailEvents "SP_X" 2))
    ∧ (allFailEvents "SP_X" 2).countP isSubmitEvent = 2 :=
  c2_retry_budget 3 2 (by decide) (by decide) (by decide) (fun _ => "E1") "SP_X" "SPDST" "EMEA" ⟨none, none⟩

/-- C3 (code bug).  Evaluation of `execute_sp_with_retries` at a unit whose
first attempt reaches the terminal status `ABORTED`: the classification at
line 274 tests only `query_status == "FAILED"`, so `ABORTED` falls into the
`else` branch at lines 293-296 — the call returns `True` ("executed
successfully"), sets `error_message` to `"Null"`, performs no retry, and
records no failure, contradicting the claim that `Aborted` is classified
like `Failed` and never as success. -/
theorem c3_aborted_is_success :
    execute_sp_with_retries 3 (fun _ => AttemptResult.term "ABORTED" (some "ERROR: query aborted"))
        "SP_X" "SPDST" "EMEA" ⟨none, none⟩
      = (true, ⟨none, some "Null"⟩, [ExecEvent.submit "SP_X"]) := by
  decide

/-- C4 (code bug).  Evaluation of `check_query_status` showing the poll loop
busy-spins: with a first describe returning the non-terminal status
`STARTED` and a second returning `FINISHED`, the two `describe_statement`
calls happen back-to-back with no sleep between them (the only
`time.sleep` in the loop, line 245, sits in the exception handler); and in
the exception case the loop sleeps once but then exits without querying
again, because the handler also sets `query_status = 'FAILED'`. -/
theorem c4_poll_busy_spins :
    (check_query_status
        (fun i => if i = 0 then DescribeResult.ok "STARTED" none
                  else DescribeResult.ok "FINISHED" none) 120 5
      = (some (⟨"FINISHED", none⟩, "FINISHED"), [PollEvent.describe, PollEvent.describe]))
    ∧ (check_query_status (fun _ => DescribeResult.err "conn reset") 120 5
      = (some (⟨"FAILED", some "conn reset"⟩, "FAILED"),
         [PollEvent.describe, PollEvent.sleep 120])) := by
  constructor <;> decide

/-- C7 counterexample.  With `RETRY_LIMIT = 2` and both attempts raising a
submission exception `"boom"`, `execute_sp_with_retries` returns `False`
with `failed_sp_entry` still unset (`none`) — no failure record carrying the
exception text exists — and with no 120-second sleep between the two
attempts, so the exception is not treated identically to a `FAILED`
terminal status. -/
theorem c7_counterexample :
    execute_sp_with_retries 2 (fun _ => AttemptResult.exc "boom") "SP_X" "OTHER" "EMEA"
        ⟨none, none⟩
      = (false, ⟨none, none⟩, [ExecEvent.submit "SP_X", ExecEvent.submit "SP_X"]) := by
  decide

/-- C7 amended.  A submission/transport exception counts as one
retry-eligible attempt: with every attempt raising, the unit is submitted
exactly `R` times and the call returns `False`.  But unlike a `FAILED`
terminal status there is no 120-second sleep between attempts, and on
exhaustion no failure record is produced: `failed_sp_entry` and
`error_message` are left exactly as they were, so the exception text is
not carried to the caller. -/
theorem c7_exception_attempts (R : Nat) (e : Nat → String) (sp fs rg : String)
    (st : ExecState) :
    execute_sp_with_retries R (fun i => AttemptResult.exc (e i)) sp fs rg st
      = (false, st, List.replicate R (ExecEvent.submit sp)) :=
  execLoop_allExc R e sp fs rg R 0 st

/-! ### Audit recorder, work-list provider, notifier and main
(source lines 33-357) -/

/-- Outcome of one `rds_client.execute_statement` call against the audit
store: success, or a raised exception with the given message. -/
inductive StoreResult where
  | ok
  | err (msg : String)
deriving DecidableEq

/-- The audit UPDATE statements `update_audit_log` builds (lines 158-179),
keeping the fields the orchestrator interpolates into the SQL text.
`masterInitial` is the `is_initial` write of `actual_start_time` and
`status` to `audit.Master_Data_For_IRR`; `triggerLog` writes
`execution_status`, `actual_end_time` and `error_message` to
`audit.sc360_reportrefreshtrigger_log`; `master` writes `status` to
`audit.Master_Data_For_IRR`. -/
inductive AuditStmt where
  | masterInitial (status : String) (region : String)
  | triggerLog (executionStatus : String) (errorMessage : String) (region : String)
  | master (status : String) (region : String)
deriving DecidableEq

/-- One element of the `failed_sps` payload of an SNS message: either a
failure-record dictionary or a plain string such as `"Unexpected error"`. -/
inductive SnsItem where
  | entry (e : FailedSpEntry)
  | text (s : String)
deriving DecidableEq

/-- Observable actions of the orchestration (`main` and its callees).
`auditTry stmt ok` is one audit-store `execute_statement` call and whether
it succeeded; `auditSleep` is the `3 * attempt` backoff at line 154;
`swallowLog` is an error print from an `except` block that swallows the
exception; `fetchAttempt`/`fetchSleep` are the work-list fetch calls and
their backoff (lines 205-219); `exec pos e` is an action of
`execute_sp_with_retries` for the unit at position `pos` of the work list;
`statusPublish` is the first `sns_client.publish` (lines 98-102) with its
target ARN and `failed_sps` payload; `successPublish` is the second,
user-facing publish (lines 115-119) with its target ARN and report URL. -/
inductive MEvent where
  | auditTry (stmt : AuditStmt) (ok : Bool)
  | auditSleep (seconds : Nat)
  | swallowLog (msg : String)
  | fetchAttempt (n : Nat)
  | fetchSleep (seconds : Nat)
  | exec (pos : Nat) (e : ExecEvent)
  | statusPublish (target : String) (failed : List SnsItem)
  | successPublish (target : String) (url : String)
deriving DecidableEq

/-- `send_sns_message` (lines 73-122): always publishes the status message
to `self.sns_arn`, and when `failed_sps` is empty additionally publishes the
user-facing success message with the report URL to the same ARN. -/
def send_sns_message (snsArn reportUrl : String) (failed : List SnsItem) : List MEvent :=
  MEvent.statusPublish snsArn failed ::
    (if failed.isEmpty then [MEvent.successPublish snsArn reportUrl] else [])

/-- The inner `execute_with_retry` of `update_audit_log` (lines 138-154):
for `attempt` in `1..3`, execute the statement; on success stop; on failure,
raise `RuntimeError` when `attempt == 3`, otherwise sleep `3 * attempt`
seconds and try again.  `store` gives the outcome of the audit-store call
with the given global call index, which is threaded through. -/
def ewrLoop (store : Nat → StoreResult) (stmt : AuditStmt) :
    List Nat → Nat → Except String Unit × Nat × List MEvent
  | [], idx => (Except.ok (), idx, [])
  | a :: rest, idx =>
      match store idx with
      | StoreResult.ok => (Except.ok (), idx + 1, [MEvent.auditTry stmt true])
      | StoreResult.err _ =>
          if a = 3 then
            (Except.error "RDS query failed after 3 attempts", idx + 1,
             [MEvent.auditTry stmt false])
          else
            let r := ewrLoop store stmt rest (idx + 1)
            (r.1, r.2.1,
             MEvent.auditTry stmt false :: MEvent.auditSleep (3 * a) :: r.2.2)

/-- `execute_with_retry sql description` with `max_retries = 3`. -/
def execute_with_retry (store : Nat → StoreResult) (stmt : AuditStmt) (idx : Nat) :
    Except String Unit × Nat × List MEvent :=
  ewrLoop store stmt [1, 2, 3] idx

/-- Whether an inner audit write completed without raising. -/
def ewrOk : Except String Unit → Bool
  | Except.ok _ => true
  | Except.error _ => false

/-- The `print` the outer `except` blocks of `update_audit_log` perform when
an inner write raised (lines 180-186): one swallow-log event, or nothing
when the write succeeded. -/
def swallowTail : Except String Unit → List MEvent
  | Except.ok _ => []
  | Except.error m => [MEvent.swallowLog m]

/-- `update_audit_log` (lines 124-186).  The initial form writes
`masterInitial`; the final form builds `sql1` (which interpolates
`self.error_message`: when that attribute was never assigned, the f-string
itself raises `AttributeError` before any statement runs) and then, only if
`sql1` succeeded, `sql2`.  Every exception — including the `RuntimeError`
raised after 3 failed attempts — is caught by the outer `try/except` at
lines 180-186, printed, and swallowed, so the function always returns
normally: the first component of the result is `Except.ok ()` on every
path. -/
def update_audit_log (store : Nat → StoreResult) (region : String) (status : String)
    (executionStatus : Option String) (errorMessage : Option String)
    (isInitial : Bool) (idx : Nat) : Except String Unit × Nat × List MEvent :=
  if isInitial then
    let r := execute_with_retry store (AuditStmt.masterInitial status region) idx
    (Except.ok (), r.2.1, r.2.2 ++ swallowTail r.1)
  else
    match errorMessage with
    | none => (Except.ok (), idx, [MEvent.swallowLog "AttributeError: error_message"])
    | some em =>
        let r1 := execute_with_retry store
          (AuditStmt.triggerLog (executionStatus.getD "None") em region) idx
        if ewrOk r1.1 then
          let r2 := execute_with_retry store (AuditStmt.master status region) r1.2.1
          (Except.ok (), r2.2.1, r1.2.2 ++ (r2.2.2 ++ swallowTail r2.1))
        else
          (Except.ok (), r1.2.1, r1.2.2 ++ swallowTail r1.1)

/-- One row of `audit.sc360_reportrefresh` with the columns the fetch query
reads or constrains. -/
structure SpRow where
  stored_procedure_name : String
  file_datasource : String
  region : String
  exec_order : Nat
deriving DecidableEq

/-- Whether a character list starts with the three characters `BMT`. -/
def startsWithBMT : List Char → Bool
  | 'B' :: 'M' :: 'T' :: _ => true
  | _ => false

/-- Whether `BMT` occurs somewhere in a character list. -/
def containsBMTChars : List Char → Bool
  | [] => false
  | ch :: rest => startsWithBMT (ch :: rest) || containsBMTChars rest

/-- SQL `file_datasource NOT LIKE '%BMT%'` operand: whether the string
contains `"BMT"` as a substring. -/
def containsBMT (s : String) : Bool :=
  containsBMTChars s.data

/-- The WHERE clause of the fetch query (lines 200-202): rows of the given
region whose `file_datasource` does not contain `BMT`. -/
def spMatches (region : String) (r : SpRow) : Bool :=
  r.region == region && !containsBMT r.file_datasource

/-- Semantics of the fetch SQL (lines 199-203) over a table snapshot:
filter by the WHERE clause and sort ascending by `exec_order`
(`ORDER BY exec_order`; insertion sort keeps tied rows in table order). -/
def queryResult (table : List SpRow) (region : String) : List SpRow :=
  List.insertionSort (fun a b => a.exec_order ≤ b.exec_order)
    (table.filter (spMatches region))

/-- Projection of a fetched row to the pair the code returns (line 214). -/
def spProj (r : SpRow) : String × String :=
  (r.stored_procedure_name, r.file_datasource)

/-- Outcome of one work-list fetch call: the table snapshot answering the
query, or a raised exception. -/
inductive FetchOutcome where
  | ok (table : List SpRow)
  | err (msg : String)
deriving DecidableEq

/-- The retry loop of `fetch_pending_sps` (lines 205-219): for `attempt` in
`1..3`, run the query; on success return the projected rows; on failure,
raise `RuntimeError` when `attempt == 3`, otherwise sleep `3 * attempt`
seconds.  The unreachable fall-through returns `[]` (line 222). -/
def fetchLoop (store : Nat → FetchOutcome) (region : String) :
    List Nat → Except String (List (String × String)) × List MEvent
  | [] => (Except.ok [], [])
  | a :: rest =>
      match store a with
      | FetchOutcome.ok table =>
          (Except.ok ((queryResult table region).map spProj), [MEvent.fetchAttempt a])
      | FetchOutcome.err _ =>
          if a = 3 then
            (Except.error "RDS query failed after 3 attempts", [MEvent.fetchAttempt a])
          else
            let r := fetchLoop store region rest
            (r.1, MEvent.fetchAttempt a :: MEvent.fetchSleep (3 * a) :: r.2)

/-- `fetch_pending_sps` (lines 188-222) with `max_retries = 3`; `store a`
is the outcome the audit database would give attempt `a`. -/
def fetch_pending_sps (store : Nat → FetchOutcome) (region : String) :
    Except String (List (String × String)) × List MEvent :=
  fetchLoop store region [1, 2, 3]

/-- The Glue job parameters the orchestration reads (lines 42-65).  Both
`sns_arn` and `users_sns_arn` are required parameters; `sns_arn_param` holds
`args['sns_arn']` and `users_sns_arn` holds `args['users_sns_arn']`. -/
structure Config where
  env : String
  reportregionname : String
  Job_name : String
  report_url : String
  sns_arn_param : String
  users_sns_arn : String
  RETRY_LIMIT : Nat
deriving DecidableEq

/-- Line 64: `self.sns_arn = args['users_sns_arn']` — the attribute every
publish targets is initialized from the `users_sns_arn` parameter, not from
the `sns_arn` parameter. -/
def initSelfSnsArn (c : Config) : String :=
  c.users_sns_arn

/-- The per-unit loop of `main` (lines 333-345), with the `except` handler
of lines 353-357 inlined at the points where an exception reaches it.
`engine pos` is the attempt oracle for the unit at position `pos`.  On a
unit failure, main writes the Failed audit state and publishes the failure
notification with `[self.failed_sp_entry]` — an attribute read that raises
`AttributeError` when the retry loop exhausted through exceptions and no
entry was ever stored — and then raises; the raise (and the
`AttributeError`) is caught by main's own catch-all handler, which writes
the Failed audit state again, publishes a second failure notification with
payload `["Unexpected error"]`, and re-raises. -/
def mainLoop (c : Config) (store : Nat → StoreResult) (engine : Nat → Nat → AttemptResult) :
    List (String × String) → Nat → Nat → ExecState → Except String Bool × List MEvent
  | [], _, idx, st =>
      let a := update_audit_log store c.reportregionname "Completed" (some "Finished")
        st.error_message false idx
      (Except.ok true,
       a.2.2 ++ send_sns_message (initSelfSnsArn c) c.report_url [])
  | (sp, fs) :: rest, pos, idx, st =>
      let r := execute_sp_with_retries c.RETRY_LIMIT (engine pos) sp fs c.reportregionname st
      let evs := r.2.2.map (MEvent.exec pos)
      if r.1 then
        let rr := mainLoop c store engine rest (pos + 1) idx r.2.1
        (rr.1, evs ++ rr.2)
      else
        let a1 := update_audit_log store c.reportregionname "Failed" (some "Failed")
          r.2.1.error_message false idx
        match r.2.1.failed_sp_entry with
        | some entry =>
            let s1 := send_sns_message (initSelfSnsArn c) c.report_url [SnsItem.entry entry]
            let a2 := update_audit_log store c.reportregionname "Failed" (some "Failed")
              r.2.1.error_message false a1.2.1
            let s2 := send_sns_message (initSelfSnsArn c) c.report_url
              [SnsItem.text "Unexpected error"]
            (Except.error ("SP " ++ sp ++ " failed; job terminating"),
             evs ++ a1.2.2 ++ s1 ++ a2.2.2 ++ s2)
        | none =>
            let a2 := update_audit_log store c.reportregionname "Failed" (some "Failed")
              r.2.1.error_message false a1.2.1
            let s2 := send_sns_message (initSelfSnsArn c) c.report_url
              [SnsItem.text "Unexpected error"]
            (Except.error "AttributeError: failed_sp_entry",
             evs ++ a1.2.2 ++ a2.2.2 ++ s2)

/-- `main` (lines 303-357): write the initial InProgress audit state, fetch
the work list, and either return success immediately on an empty list
(lines 326-329: success notifications only, no further audit write), or run
the units in order.  A fetch failure propagates to the catch-all handler
(lines 353-357), which writes the Failed audit state — a write that is
internally aborted because `self.error_message` is still unset — publishes
the generic failure notification, and re-raises. -/
def mainRun (c : Config) (store : Nat → StoreResult) (fstore : Nat → FetchOutcome)
    (engine : Nat → Nat → AttemptResult) : Except String Bool × List MEvent :=
  let a0 := update_audit_log store c.reportregionname "InProgress" none none true 0
  let f := fetch_pending_sps fstore c.reportregionname
  match f.1 with
  | Except.error m =>
      let a1 := update_audit_log store c.reportregionname "Failed" (some "Failed")
        none false a0.2.1
      let s := send_sns_message (initSelfSnsArn c) c.report_url
        [SnsItem.text "Unexpected error"]
      (Except.error m, a0.2.2 ++ f.2 ++ a1.2.2 ++ s)
  | Except.ok sps =>
      if sps.isEmpty then
        (Except.ok true, a0.2.2 ++ f.2 ++ send_sns_message (initSelfSnsArn c) c.report_url [])
      else
        let r := mainLoop c store engine sps 0 a0.2.1 ⟨none, none⟩
        (r.1, a0.2.2 ++ f.2 ++ r.2)

/-! ### Trace classifiers and shape lemmas -/

/-- Recognizes the user-facing success publish. -/
def isSuccessPublish : MEvent → Bool
  | MEvent.successPublish _ _ => true
  | _ => false

/-- Recognizes a failure notification: a status publish whose `failed_sps`
payload is non-empty (its subject renders as `... Report Refresh Failed`). -/
def isFailurePublish : MEvent → Bool
  | MEvent.statusPublish _ failed => !failed.isEmpty
  | _ => false

/-- Recognizes a successful audit write that records run completion:
`execution_status = 'Finished'` in the trigger log or `status = 'Completed'`
in the master row. -/
def isCompletionWrite : MEvent → Bool
  | MEvent.auditTry (AuditStmt.triggerLog es _ _) true => es == "Finished"
  | MEvent.auditTry (AuditStmt.master s _) true => s == "Completed"
  | _ => false

/-- The target ARN of a publish event, if the event is a publish. -/
def publishTargetOf : MEvent → Option String
  | MEvent.statusPublish t _ => some t
  | MEvent.successPublish t _ => some t
  | _ => none

theorem ewrLoop_mem (store : Nat → StoreResult) (stmt : AuditStmt) :
    ∀ l idx e, e ∈ (ewrLoop store stmt l idx).2.2 →
      (∃ b, e = MEvent.auditTry stmt b) ∨ (∃ n, e = MEvent.auditSleep n) := by
  intro l
  induction l with
  | nil => intro idx e he; simp [ewrLoop] at he
  | cons a rest ih =>
      intro idx e he
      simp only [ewrLoop] at he
      cases hs : store idx with
      | ok => rw [hs] at he; simp at he; exact Or.inl ⟨true, he⟩
      | err m =>
          rw [hs] at he
          by_cases ha : a = 3
          · simp [ha] at he; exact Or.inl ⟨false, he⟩
          · simp only [ha, if_false, List.mem_cons] at he
            rcases he with h1 | h2 | h3
            · exact Or.inl ⟨false, h1⟩
            · exact Or.inr ⟨3 * a, h2⟩
            · exact ih (idx + 1) e h3

theorem execute_with_retry_mem (store : Nat → StoreResult) (stmt : AuditStmt) (idx : Nat) :
    ∀ e ∈ (execute_with_retry store stmt idx).2.2,
      (∃ b, e = MEvent.auditTry stmt b) ∨ (∃ n, e = MEvent.auditSleep n) :=
  fun e he => ewrLoop_mem store stmt [1, 2, 3] idx e he

theorem swallowTail_mem (r : Except String Unit) :
    ∀ e ∈ swallowTail r, ∃ m, e = MEvent.swallowLog m := by
  intro e he
  cases r with
  | ok u => simp [swallowTail] at he
  | error m => simp [swallowTail] at he; exact ⟨m, he⟩

theorem update_audit_log_mem (store : Nat → StoreResult) (region status : String)
    (es em : Option String) (ii : Bool) (idx : Nat) :
    ∀ e ∈ (update_audit_log store region status es em ii idx).2.2,
      (∃ b, e = MEvent.auditTry (AuditStmt.masterInitial status region) b)
      ∨ (∃ b em2, e = MEvent.auditTry (AuditStmt.triggerLog (es.getD "None") em2 region) b)
      ∨ (∃ b, e = MEvent.auditTry (AuditStmt.master status region) b)
      ∨ (∃ n, e = MEvent.auditSleep n)
      ∨ (∃ m, e = MEvent.swallowLog m) := by
  intro e he
  by_cases hii : ii
  · have htr : (update_audit_log store region status es em ii idx).2.2
        = (execute_with_retry store (AuditStmt.masterInitial status region) idx).2.2
          ++ swallowTail (execute_with_retry store (AuditStmt.masterInitial status region) idx).1 := by
      simp [update_audit_log, hii]
    rw [htr] at he
    rcases List.mem_append.1 he with he | he
    · rcases execute_with_retry_mem store _ idx e he with ⟨b, hb⟩ | ⟨n, hn⟩
      · exact Or.inl ⟨b, hb⟩
      · exact Or.inr (Or.inr (Or.inr (Or.inl ⟨n, hn⟩)))
    · exact Or.inr (Or.inr (Or.inr (Or.inr (swallowTail_mem _ e he))))
  · cases em with
    | none =>
        have htr : (update_audit_log store region status es none ii idx).2.2
            = [MEvent.swallowLog "AttributeError: error_message"] := by
          simp [update_audit_log, hii]
        rw [htr] at he
        exact Or.inr (Or.inr (Or.inr (Or.inr ⟨_, List.mem_singleton.1 he⟩)))
    | some emv =>
        by_cases hok : ewrOk (execute_with_retry store
            (AuditStmt.triggerLog (es.getD "None") emv region) idx).1
        · have htr : (update_audit_log store region status es (some emv) ii idx).2.2
              = (execute_with_retry store
                  (AuditStmt.triggerLog (es.getD "None") emv region) idx).2.2
                ++ ((execute_with_retry store (AuditStmt.master status region)
                      (execute_with_retry store
                        (AuditStmt.triggerLog (es.getD "None") emv region) idx).2.1).2.2
                  ++ swallowTail (execute_with_retry store (AuditStmt.master status region)
                      (execute_with_retry store
                        (AuditStmt.triggerLog (es.getD "None") emv region) idx).2.1).1) := by
            simp [update_audit_log, hii, hok]
          rw [htr] at he
          rcases List.mem_append.1 he with he | he
          · rcases execute_with_retry_mem store _ idx e he with ⟨b, hb⟩ | ⟨n, hn⟩
            · exact Or.inr (Or.inl ⟨b, emv, hb⟩)
            · exact Or.inr (Or.inr (Or.inr (Or.inl ⟨n, hn⟩)))
          · rcases List.mem_append.1 he with he | he
            · rcases execute_with_retry_mem store _ _ e he with ⟨b, hb⟩ | ⟨n, hn⟩
              · exact Or.inr (Or.inr (Or.inl ⟨b, hb⟩))
              · exact Or.inr (Or.inr (Or.inr (Or.inl ⟨n, hn⟩)))
            · exact Or.inr (Or.inr (Or.inr (Or.inr (swallowTail_mem _ e he))))
        · have htr : (update_audit_log store region status es (some emv) ii idx).2.2
              = (execute_with_retry store
                  (AuditStmt.triggerLog (es.getD "None") emv region) idx).2.2
                ++ swallowTail (execute_with_retry store
                    (AuditStmt.triggerLog (es.getD "None") emv region) idx).1 := by
            simp [update_audit_log, hii, hok]
          rw [htr] at he
          rcases List.mem_append.1 he with he | he
          · rcases execute_with_retry_mem store _ idx e he with ⟨b, hb⟩ | ⟨n, hn⟩
            · exact Or.inr (Or.inl ⟨b, emv, hb⟩)
            · exact Or.inr (Or.inr (Or.inr (Or.inl ⟨n, hn⟩)))
          · exact Or.inr (Or.inr (Or.inr (Or.inr (swallowTail_mem _ e he))))

theorem fetchLoop_mem (store : Nat → FetchOutcome) (region : String) :
    ∀ l e, e ∈ (fetchLoop store region l).2 →
      (∃ n, e = MEvent.fetchAttempt n) ∨ (∃ n, e = MEvent.fetchSleep n) := by
  intro l
  induction l with
  | nil => intro e he; simp [fetchLoop] at he
  | cons a rest ih =>
      intro e he
      simp only [fetchLoop] at he
      cases hs : store a with
      | ok t => rw [hs] at he; simp at he; exact Or.inl ⟨a, he⟩
      | err m =>
          rw [hs] at he
          by_cases ha : a = 3
          · simp [ha] at he; exact Or.inl ⟨a, by simp [ha, he]⟩
          · simp only [ha, if_false, List.mem_cons] at he
            rcases he with h1 | h2 | h3
            · exact Or.inl ⟨a, h1⟩
            · exact Or.inr ⟨3 * a, h2⟩
            · exact ih e h3

theorem send_sns_message_mem (snsArn reportUrl : String) (failed : List SnsItem) :
    ∀ e ∈ send_sns_message snsArn reportUrl failed,
      e = MEvent.statusPublish snsArn failed ∨ e = MEvent.successPublish snsArn reportUrl := by
  intro e he
  simp only [send_sns_message, List.mem_cons] at he
  rcases he with h | h
  · exact Or.inl h
  · by_cases hf : failed.isEmpty
    · simp [hf] at h; exact Or.inr h
    · simp [hf] at h

theorem update_audit_log_publishTarget (store : Nat → StoreResult) (region status : String)
    (es em : Option String) (ii : Bool) (idx : Nat) :
    ∀ e ∈ (update_audit_log store region status es em ii idx).2.2,
      publishTargetOf e = none := by
  intro e he
  rcases update_audit_log_mem store region status es em ii idx e he with
    ⟨b, h⟩ | ⟨b, em2, h⟩ | ⟨b, h⟩ | ⟨n, h⟩ | ⟨m, h⟩ <;> subst h <;> rfl

theorem update_audit_log_no_exec (store : Nat → StoreResult) (region status : String)
    (es em : Option String) (ii : Bool) (idx k : Nat) (ee : ExecEvent) :
    MEvent.exec k ee ∉ (update_audit_log store region status es em ii idx).2.2 := by
  intro he
  rcases update_audit_log_mem store region status es em ii idx _ he with
    ⟨b, h⟩ | ⟨b, em2, h⟩ | ⟨b, h⟩ | ⟨n, h⟩ | ⟨m, h⟩ <;> simp at h

theorem update_audit_log_countP_zero (store : Nat → StoreResult) (region status : String)
    (es em : Option String) (ii : Bool) (idx : Nat) (p : MEvent → Bool)
    (h1 : ∀ b, p (MEvent.auditTry (AuditStmt.masterInitial status region) b) = false)
    (h2 : ∀ b em2, p (MEvent.auditTry
        (AuditStmt.triggerLog (es.getD "None") em2 region) b) = false)
    (h3 : ∀ b, p (MEvent.auditTry (AuditStmt.master status region) b) = false)
    (h4 : ∀ n, p (MEvent.auditSleep n) = false)
    (h5 : ∀ m, p (MEvent.swallowLog m) = false) :
    (update_audit_log store region status es em ii idx).2.2.countP p = 0 := by
  apply List.countP_eq_zero.2
  intro e he
  rcases update_audit_log_mem store region status es em ii idx e he with
    ⟨b, h⟩ | ⟨b, em2, h⟩ | ⟨b, h⟩ | ⟨n, h⟩ | ⟨m, h⟩ <;> subst h <;> simp [h1, h2, h3, h4, h5]

theorem send_sns_no_exec (t u : String) (f : List SnsItem) (k : Nat) (ee : ExecEvent) :
    MEvent.exec k ee ∉ send_sns_message t u f := by
  intro he
  rcases send_sns_message_mem t u f _ he with h | h <;> simp at h

theorem send_sns_publishTarget (t u : String) (f : List SnsItem) :
    ∀ e ∈ send_sns_message t u f, publishTargetOf e = some t := by
  intro e he
  rcases send_sns_message_mem t u f e he with h | h <;> subst h <;> rfl

theorem fetchLoop_publishTarget (store : Nat → FetchOutcome) (region : String)
    (l : List Nat) : ∀ e ∈ (fetchLoop store region l).2, publishTargetOf e = none := by
  intro e he
  rcases fetchLoop_mem store region l e he with ⟨n, h⟩ | ⟨n, h⟩ <;> subst h <;> rfl

theorem fetchLoop_no_exec (store : Nat → FetchOutcome) (region : String)
    (l : List Nat) (k : Nat) (ee : ExecEvent) :
    MEvent.exec k ee ∉ (fetchLoop store region l).2 := by
  intro he
  rcases fetchLoop_mem store region l _ he with ⟨n, h⟩ | ⟨n, h⟩ <;> simp at h

/-- C5 counterexample.  Concrete evaluation of `update_audit_log` with an
audit store that fails every call: after the 3 attempts are exhausted the
function still returns `Except.ok ()` — byte-for-byte the value the fully
successful call returns — so no distinguishable warning-level error reaches
the caller; the exhaustion is only printed (the swallow-log event). -/
theorem c5_counterexample :
    (update_audit_log (fun _ => StoreResult.err "store down") "EMEA" "Failed" (some "Failed")
        (some "boom") false 0).1 = Except.ok ()
    ∧ (update_audit_log (fun _ => StoreResult.ok) "EMEA" "Failed" (some "Failed")
        (some "boom") false 0).1 = Except.ok ()
    ∧ (update_audit_log (fun _ => StoreResult.err "store down") "EMEA" "Failed"
            (some "Failed") (some "boom") false 0).2.2
        = [MEvent.auditTry (AuditStmt.triggerLog "Failed" "boom" "EMEA") false,
           MEvent.auditSleep 3,
           MEvent.auditTry (AuditStmt.triggerLog "Failed" "boom" "EMEA") false,
           MEvent.auditSleep 6,
           MEvent.auditTry (AuditStmt.triggerLog "Failed" "boom" "EMEA") false,
           MEvent.swallowLog "RDS query failed after 3 attempts"] :=
  ⟨rfl, rfl, rfl⟩

/-- C5 amended.  When every audit-store call fails, `update_audit_log`
retries the trigger-log write 3 times with backoff sleeps of `3s` and `6s`,
does not crash the batch, logs the exhaustion (the swallow-log event), and
returns `Except.ok ()` — exactly the success value — surfacing no error of
any kind to its caller; the second (master) write is never attempted. -/
theorem c5_audit_write_swallowed (m region status es em : String) (idx : Nat) :
    update_audit_log (fun _ => StoreResult.err m) region status (some es) (some em) false idx
      = (Except.ok (), idx + 3,
         [MEvent.auditTry (AuditStmt.triggerLog es em region) false,
          MEvent.auditSleep 3,
          MEvent.auditTry (AuditStmt.triggerLog es em region) false,
          MEvent.auditSleep 6,
          MEvent.auditTry (AuditStmt.triggerLog es em region) false,
          MEvent.swallowLog "RDS query failed after 3 attempts"]) := rfl

theorem mainLoop_exec_mem (c : Config) (store : Nat → StoreResult)
    (engine : Nat → Nat → AttemptResult) :
    ∀ units pos idx st k ee,
      MEvent.exec k ee ∈ (mainLoop c store engine units pos idx st).2 →
      ∃ off, off < units.length ∧ k = pos + off
        ∧ ∀ o, o < off → execOutcome c.RETRY_LIMIT (engine (pos + o)) = true := by
  intro units
  induction units with
  | nil =>
      intro pos idx st k ee he
      have htr : (mainLoop c store engine [] pos idx st).2
          = (update_audit_log store c.reportregionname "Completed" (some "Finished")
              st.error_message false idx).2.2
            ++ send_sns_message (initSelfSnsArn c) c.report_url [] := rfl
      rw [htr] at he
      rcases List.mem_append.1 he with he | he
      · exact absurd he (update_audit_log_no_exec _ _ _ _ _ _ _ _ _)
      · exact absurd he (send_sns_no_exec _ _ _ _ _)
  | cons hd rest ih =>
      rcases hd with ⟨sp, fs⟩
      intro pos idx st k ee he
      by_cases hr : (execute_sp_with_retries c.RETRY_LIMIT (engine pos) sp fs
          c.reportregionname st).1
      · have htr : (mainLoop c store engine ((sp, fs) :: rest) pos idx st).2
            = ((execute_sp_with_retries c.RETRY_LIMIT (engine pos) sp fs
                c.reportregionname st).2.2.map (MEvent.exec pos))
              ++ (mainLoop c store engine rest (pos + 1) idx
                  (execute_sp_with_retries c.RETRY_LIMIT (engine pos) sp fs
                    c.reportregionname st).2.1).2 := by
          simp [mainLoop, hr]
        rw [htr] at he
        rcases List.mem_append.1 he with he | he
        · obtain ⟨a, _, haeq⟩ := List.mem_map.1 he
          refine ⟨0, by simp, ?_, ?_⟩
          · injection haeq with h1 h2
            omega
          · intro o ho; omega
        · obtain ⟨off, h1, h2, h3⟩ := ih (pos + 1) idx _ k ee he
          refine ⟨off + 1, by simp; omega, by omega, ?_⟩
          intro o ho
          cases o with
          | zero =>
              rw [execute_fst] at hr
              simpa using hr
          | succ o2 =>
              have heq : pos + (o2 + 1) = pos + 1 + o2 := by omega
              rw [heq]
              exact h3 o2 (by omega)
      · have hkey : ∀ e2, e2 ∈ (mainLoop c store engine ((sp, fs) :: rest) pos idx st).2 →
            e2 ∈ ((execute_sp_with_retries c.RETRY_LIMIT (engine pos) sp fs
                c.reportregionname st).2.2.map (MEvent.exec pos))
            ∨ (∀ k2 ee2, e2 ≠ MEvent.exec k2 ee2) := by
          intro e2 he2
          cases hfe : (execute_sp_with_retries c.RETRY_LIMIT (engine pos) sp fs
              c.reportregionname st).2.1.failed_sp_entry with
          | some entry =>
              have htr : (mainLoop c store engine ((sp, fs) :: rest) pos idx st).2
                  = ((execute_sp_with_retries c.RETRY_LIMIT (engine pos) sp fs
                      c.reportregionname st).2.2.map (MEvent.exec pos))
                    ++ (update_audit_log store c.reportregionname "Failed" (some "Failed")
                        (execute_sp_with_retries c.RETRY_LIMIT (engine pos) sp fs
                          c.reportregionname st).2.1.error_message false idx).2.2
                    ++ send_sns_message (initSelfSnsArn c) c.report_url [SnsItem.entry entry]
                    ++ (update_audit_log store c.reportregionname "Failed" (some "Failed")
                        (execute_sp_with_retries c.RETRY_LIMIT (engine pos) sp fs
                          c.reportregionname st).2.1.error_message false
                        (update_audit_log store c.reportregionname "Failed" (some "Failed")
                          (execute_sp_with_retries c.RETRY_LIMIT (engine pos) sp fs
                            c.reportregionname st).2.1.error_message false idx).2.1).2.2
                    ++ send_sns_message (initSelfSnsArn c) c.report_url
                        [SnsItem.text "Unexpected error"] := by
                simp [mainLoop, hr, hfe]
              rw [htr] at he2
              rcases List.mem_append.1 he2 with he2 | he2
              rotate_left
              · exact Or.inr (fun k2 ee2 hne => by
                  subst hne; exact send_sns_no_exec _ _ _ _ _ he2)
              rcases List.mem_append.1 he2 with he2 | he2
              rotate_left
              · exact Or.inr (fun k2 ee2 hne => by
                  subst hne; exact update_audit_log_no_exec _ _ _ _ _ _ _ _ _ he2)
              rcases List.mem_append.1 he2 with he2 | he2
              rotate_left
              · exact Or.inr (fun k2 ee2 hne => by
                  subst hne; exact send_sns_no_exec _ _ _ _ _ he2)
              rcases List.mem_append.1 he2 with he2 | he2
              · exact Or.inl he2
              · exact Or.inr (fun k2 ee2 hne => by
                  subst hne; exact update_audit_log_no_exec _ _ _ _ _ _ _ _ _ he2)
          | none =>
              have htr : (mainLoop c store engine ((sp, fs) :: rest) pos idx st).2
                  = ((execute_sp_with_retries c.RETRY_LIMIT (engine pos) sp fs
                      c.reportregionname st).2.2.map (MEvent.exec pos))
                    ++ (update_audit_log store c.reportregionname "Failed" (some "Failed")
                        (execute_sp_with_retries c.RETRY_LIMIT (engine pos) sp fs
                          c.reportregionname st).2.1.error_message false idx).2.2
                    ++ (update_audit_log store c.reportregionname "Failed" (some "Failed")
                        (execute_sp_with_retries c.RETRY_LIMIT (engine pos) sp fs
                          c.reportregionname st).2.1.error_message false
                        (update_audit_log store c.reportregionname "Failed" (some "Failed")
                          (execute_sp_with_retries c.RETRY_LIMIT (engine pos) sp fs
                            c.reportregionname st).2.1.error_message false idx).2.1).2.2
                    ++ send_sns_message (initSelfSnsArn c) c.report_url
                        [SnsItem.text "Unexpected error"] := by
                simp [mainLoop, hr, hfe]
              rw [htr] at he2
              rcases List.mem_append.1 he2 with he2 | he2
              rotate_left
              · exact Or.inr (fun k2 ee2 hne => by
                  subst hne; exact send_sns_no_exec _ _ _ _ _ he2)
              rcases List.mem_append.1 he2 with he2 | he2
              rotate_left
              · exact Or.inr (fun k2 ee2 hne => by
                  subst hne; exact update_audit_log_no_exec _ _ _ _ _ _ _ _ _ he2)
              rcases List.mem_append.1 he2 with he2 | he2
              · exact Or.inl he2
              · exact Or.inr (fun k2 ee2 hne => by
                  subst hne; exact update_audit_log_no_exec _ _ _ _ _ _ _ _ _ he2)
        rcases hkey _ he with he2 | hne
        · obtain ⟨a, _, haeq⟩ := List.mem_map.1 he2
          refine ⟨0, by simp, ?_, ?_⟩
          · injection haeq with h1 h2
            omega
          · intro o ho; omega
        · exact absurd rfl (hne k ee)

theorem mainLoop_fails (c : Config) (store : Nat → StoreResult)
    (engine : Nat → Nat → AttemptResult) :
    ∀ units pos idx st o, o < units.length →
      execOutcome c.RETRY_LIMIT (engine (pos + o)) = false →
      ∃ m, (mainLoop c store engine units pos idx st).1 = Except.error m := by
  intro units
  induction units with
  | nil => intro pos idx st o ho hf; simp at ho
  | cons hd rest ih =>
      rcases hd with ⟨sp, fs⟩
      intro pos idx st o ho hf
      by_cases hr : (execute_sp_with_retries c.RETRY_LIMIT (engine pos) sp fs
          c.reportregionname st).1
      · cases o with
        | zero =>
            rw [execute_fst] at hr
            rw [Nat.add_zero] at hf
            rw [hf] at hr
            exact absurd hr (by simp)
        | succ o2 =>
            obtain ⟨m, hm⟩ := ih (pos + 1) idx
              (execute_sp_with_retries c.RETRY_LIMIT (engine pos) sp fs
                c.reportregionname st).2.1 o2 (by simp at ho; omega)
              (by have heq : pos + 1 + o2 = pos + (o2 + 1) := by omega
                  rw [heq]; exact hf)
            exact ⟨m, by simp [mainLoop, hr]; exact hm⟩
      · cases hfe : (execute_sp_with_retries c.RETRY_LIMIT (engine pos) sp fs
            c.reportregionname st).2.1.failed_sp_entry with
        | some entry =>
            exact ⟨"SP " ++ sp ++ " failed; job terminating", by simp [mainLoop, hr, hfe]⟩
        | none =>
            exact ⟨"AttributeError: failed_sp_entry", by simp [mainLoop, hr, hfe]⟩

theorem mainLoop_publish (c : Config) (store : Nat → StoreResult)
    (engine : Nat → Nat → AttemptResult) :
    ∀ units pos idx st e, e ∈ (mainLoop c store engine units pos idx st).2 →
      publishTargetOf e = none ∨ publishTargetOf e = some c.users_sns_arn := by
  intro units
  induction units with
  | nil =>
      intro pos idx st e he
      have htr : (mainLoop c store engine [] pos idx st).2
          = (update_audit_log store c.reportregionname "Completed" (some "Finished")
              st.error_message false idx).2.2
            ++ send_sns_message (initSelfSnsArn c) c.report_url [] := rfl
      rw [htr] at he
      rcases List.mem_append.1 he with he | he
      · exact Or.inl (update_audit_log_publishTarget _ _ _ _ _ _ _ e he)
      · exact Or.inr (send_sns_publishTarget _ _ _ e he)
  | cons hd rest ih =>
      rcases hd with ⟨sp, fs⟩
      intro pos idx st e he
      by_cases hr : (execute_sp_with_retries c.RETRY_LIMIT (engine pos) sp fs
          c.reportregionname st).1
      · have htr : (mainLoop c store engine ((sp, fs) :: rest) pos idx st).2
            = ((execute_sp_with_retries c.RETRY_LIMIT (engine pos) sp fs
                c.reportregionname st).2.2.map (MEvent.exec pos))
              ++ (mainLoop c store engine rest (pos + 1) idx
                  (execute_sp_with_retries c.RETRY_LIMIT (engine pos) sp fs
                    c.reportregionname st).2.1).2 := by
          simp [mainLoop, hr]
        rw [htr] at he
        rcases List.mem_append.1 he with he | he
        · obtain ⟨a, _, haeq⟩ := List.mem_map.1 he
          exact Or.inl (by rw [haeq.symm]; rfl)
        · exact ih (pos + 1) idx _ e he
      · cases hfe : (execute_sp_with_retries c.RETRY_LIMIT (engine pos) sp fs
            c.reportregionname st).2.1.failed_sp_entry with
        | some entry =>
            have htr : (mainLoop c store engine ((sp, fs) :: rest) pos idx st).2
                = ((execute_sp_with_retries c.RETRY_LIMIT (engine pos) sp fs
                    c.reportregionname st).2.2.map (MEvent.exec pos))
                  ++ (update_audit_log store c.reportregionname "Failed" (some "Failed")
                      (execute_sp_with_retries c.RETRY_LIMIT (engine pos) sp fs
                        c.reportregionname st).2.1.error_message false idx).2.2
                  ++ send_sns_message (initSelfSnsArn c) c.report_url [SnsItem.entry entry]
                  ++ (update_audit_log store c.reportregionname "Failed" (some "Failed")
                      (execute_sp_with_retries c.RETRY_LIMIT (engine pos) sp fs
                        c.reportregionname st).2.1.error_message false
                      (update_audit_log store c.reportregionname "Failed" (some "Failed")
                        (execute_sp_with_retries c.RETRY_LIMIT (engine pos) sp fs
                          c.reportregionname st).2.1.error_message false idx).2.1).2.2
                  ++ send_sns_message (initSelfSnsArn c) c.report_url
                      [SnsItem.text "Unexpected error"] := by
              simp [mainLoop, hr, hfe]
            rw [htr] at he
            simp only [List.mem_append] at he
            rcases he with ((((he | he) | he) | he) | he)
            · obtain ⟨a, _, haeq⟩ := List.mem_map.1 he
              exact Or.inl (by rw [haeq.symm]; rfl)
            · exact Or.inl (update_audit_log_publishTarget _ _ _ _ _ _ _ e he)
            · exact Or.inr (send_sns_publishTarget _ _ _ e he)
            · exact Or.inl (update_audit_log_publishTarget _ _ _ _ _ _ _ e he)
            · exact Or.inr (send_sns_publishTarget _ _ _ e he)
        | none =>
            have htr : (mainLoop c store engine ((sp, fs) :: rest) pos idx st).2
                = ((execute_sp_with_retries c.RETRY_LIMIT (engine pos) sp fs
                    c.reportregionname st).2.2.map (MEvent.exec pos))
                  ++ (update_audit_log store c.reportregionname "Failed" (some "Failed")
                      (execute_sp_with_retries c.RETRY_LIMIT (engine pos) sp fs
                        c.reportregionname st).2.1.error_message false idx).2.2
                  ++ (update_audit_log store c.reportregionname "Failed" (some "Failed")
                      (execute_sp_with_retries c.RETRY_LIMIT (engine pos) sp fs
                        c.reportregionname st).2.1.error_message false
                      (update_audit_log store c.reportregionname "Failed" (some "Failed")
                        (execute_sp_with_retries c.RETRY_LIMIT (engine pos) sp fs
                          c.reportregionname st).2.1.error_message false idx).2.1).2.2
                  ++ send_sns_message (initSelfSnsArn c) c.report_url
                      [SnsItem.text "Unexpected error"] := by
              simp [mainLoop, hr, hfe]
            rw [htr] at he
            simp only [List.mem_append] at he
            rcases he with (((he | he) | he) | he)
            · obtain ⟨a, _, haeq⟩ := List.mem_map.1 he
              exact Or.inl (by rw [haeq.symm]; rfl)
            · exact Or.inl (update_audit_log_publishTarget _ _ _ _ _ _ _ e he)
            · exact Or.inl (update_audit_log_publishTarget _ _ _ _ _ _ _ e he)
            · exact Or.inr (send_sns_publishTarget _ _ _ e he)

theorem mainLoop_sns_param (e0 r0 j0 u0 s1 s2 us0 : String) (R0 : Nat)
    (store : Nat → StoreResult) (engine : Nat → Nat → AttemptResult) :
    ∀ units pos idx st,
      mainLoop ⟨e0, r0, j0, u0, s1, us0, R0⟩ store engine units pos idx st
        = mainLoop ⟨e0, r0, j0, u0, s2, us0, R0⟩ store engine units pos idx st := by
  intro units
  induction units with
  | nil => intro pos idx st; rfl
  | cons hd rest ih =>
      intro pos idx st
      rcases hd with ⟨sp, fs⟩
      simp only [mainLoop, ih, initSelfSnsArn]

theorem mainRun_sns_param (e0 r0 j0 u0 s1 s2 us0 : String) (R0 : Nat)
    (store : Nat → StoreResult) (fstore : Nat → FetchOutcome)
    (engine : Nat → Nat → AttemptResult) :
    mainRun ⟨e0, r0, j0, u0, s1, us0, R0⟩ store fstore engine
      = mainRun ⟨e0, r0, j0, u0, s2, us0, R0⟩ store fstore engine := by
  simp only [mainRun, initSelfSnsArn, mainLoop_sns_param e0 r0 j0 u0 s1 s2 us0 R0 store engine]

/-- C10.  Every notification published during any run — the operator status
message and the user-facing success message alike — targets the
`users_sns_arn` job parameter (because line 64 initializes the
`self.sns_arn` attribute from `args['users_sns_arn']`); the run is
completely independent of the value of the required `sns_arn` job
parameter, which is read at startup and then never used; consequently,
whenever the two parameters hold different ARNs, no publish ever targets
the `sns_arn` topic. -/
theorem c10_sns_targets (c : Config) (store : Nat → StoreResult)
    (fstore : Nat → FetchOutcome) (engine : Nat → Nat → AttemptResult) (x : String) :
    (∀ e ∈ (mainRun c store fstore engine).2,
        publishTargetOf e = none ∨ publishTargetOf e = some c.users_sns_arn)
    ∧ mainRun { c with sns_arn_param := x } store fstore engine
        = mainRun c store fstore engine
    ∧ (c.sns_arn_param ≠ c.users_sns_arn →
        ∀ e ∈ (mainRun c store fstore engine).2,
          publishTargetOf e ≠ some c.sns_arn_param) := by
  have hmain : ∀ e ∈ (mainRun c store fstore engine).2,
      publishTargetOf e = none ∨ publishTargetOf e = some c.users_sns_arn := by
    intro e he
    cases hf : (fetch_pending_sps fstore c.reportregionname).1 with
    | error m =>
        have htr : (mainRun c store fstore engine).2
            = (update_audit_log store c.reportregionname "InProgress" none none true 0).2.2
              ++ (fetch_pending_sps fstore c.reportregionname).2
              ++ (update_audit_log store c.reportregionname "Failed" (some "Failed") none false
                  (update_audit_log store c.reportregionname "InProgress" none none true 0).2.1).2.2
              ++ send_sns_message (initSelfSnsArn c) c.report_url
                  [SnsItem.text "Unexpected error"] := by
          simp [mainRun, hf]
        rw [htr] at he
        simp only [List.mem_append] at he
        rcases he with (((he | he) | he) | he)
        · exact Or.inl (update_audit_log_publishTarget _ _ _ _ _ _ _ e he)
        · exact Or.inl (fetchLoop_publishTarget fstore c.reportregionname [1, 2, 3] e he)
        · exact Or.inl (update_audit_log_publishTarget _ _ _ _ _ _ _ e he)
        · exact Or.inr (send_sns_publishTarget _ _ _ e he)
    | ok sps =>
        by_cases hemp : sps.isEmpty
        · have htr : (mainRun c store fstore engine).2
              = (update_audit_log store c.reportregionname "InProgress" none none true 0).2.2
                ++ (fetch_pending_sps fstore c.reportregionname).2
                ++ send_sns_message (initSelfSnsArn c) c.report_url [] := by
            simp [mainRun, hf, hemp]
          rw [htr] at he
          simp only [List.mem_append] at he
          rcases he with ((he | he) | he)
          · exact Or.inl (update_audit_log_publishTarget _ _ _ _ _ _ _ e he)
          · exact Or.inl (fetchLoop_publishTarget fstore c.reportregionname [1, 2, 3] e he)
          · exact Or.inr (send_sns_publishTarget _ _ _ e he)
        · have htr : (mainRun c store fstore engine).2
              = (update_audit_log store c.reportregionname "InProgress" none none true 0).2.2
                ++ (fetch_pending_sps fstore c.reportregionname).2
                ++ (mainLoop c store engine sps 0
                    (update_audit_log store c.reportregionname "InProgress" none none true 0).2.1
                    ⟨none, none⟩).2 := by
            simp [mainRun, hf, hemp]
          rw [htr] at he
          simp only [List.mem_append] at he
          rcases he with ((he | he) | he)
          · exact Or.inl (update_audit_log_publishTarget _ _ _ _ _ _ _ e he)
          · exact Or.inl (fetchLoop_publishTarget fstore c.reportregionname [1, 2, 3] e he)
          · exact mainLoop_publish c store engine sps 0 _ _ e he
  refine ⟨hmain, ?_, ?_⟩
  · obtain ⟨e0, r0, j0, u0, s0, us0, R0⟩ := c
    exact mainRun_sns_param e0 r0 j0 u0 x s0 us0 R0 store fstore engine
  intro hne e he hcontra
  rcases hmain e he with h | h
  · rw [h] at hcontra; exact Option.noConfusion hcontra
  · rw [h] at hcontra
    exact hne (Option.some.inj hcontra).symm

/-- Witness for C10: in a concrete empty-work-list run, the status publish
found in the trace targets `"arn-users"` (the `users_sns_arn` parameter)
and does not target `"arn-ops"` (the `sns_arn` parameter). -/
theorem c10_sns_targets_witness :
    (publishTargetOf (MEvent.statusPublish "arn-users" []) = none
      ∨ publishTargetOf (MEvent.statusPublish "arn-users" []) = some "arn-users")
    ∧ publishTargetOf (MEvent.statusPublish "arn-users" []) ≠ some "arn-ops" := by
  refine ⟨(c10_sns_targets ⟨"dev", "EMEA", "job", "http://r", "arn-ops", "arn-users", 1⟩
      (fun _ => StoreResult.ok) (fun _ => FetchOutcome.ok [])
      (fun _ _ => AttemptResult.term "FINISHED" none) "arn-x").1 _ ?_,
    (c10_sns_targets ⟨"dev", "EMEA", "job", "http://r", "arn-ops", "arn-users", 1⟩
      (fun _ => StoreResult.ok) (fun _ => FetchOutcome.ok [])
      (fun _ _ => AttemptResult.term "FINISHED" none) "arn-x").2.2 (by decide) _ ?_⟩
  · decide
  · decide

/-- C1.  Fail-fast: for every configuration, audit-store behavior, fetched
table and engine behavior, if the unit at position `i` of the fetched work
list would exhaust its retry budget (`execute_sp_with_retries` returns
`False`, captured by `execOutcome`), then for any later position `j > i` no
event of unit `j` — in particular no submission — ever appears in the run
trace, and the run terminates as failed (`main` ends in a raised exception,
modelled as `Except.error`).  "Marked Failed" is read as the run reaching
its `Failed` terminal outcome; the audit-store write of this outcome is the
subject of C5/C8. -/
theorem c1_fail_fast (c : Config) (store : Nat → StoreResult) (fstore : Nat → FetchOutcome)
    (engine : Nat → Nat → AttemptResult) (table : List SpRow) (i j : Nat)
    (hfetch : fstore 1 = FetchOutcome.ok table)
    (hij : i < j)
    (hj : j < ((queryResult table c.reportregionname).map spProj).length)
    (hfail : execOutcome c.RETRY_LIMIT (engine i) = false) :
    (∀ ee, MEvent.exec j ee ∉ (mainRun c store fstore engine).2)
    ∧ (∃ m, (mainRun c store fstore engine).1 = Except.error m) := by
  have hf : fetch_pending_sps fstore c.reportregionname
      = (Except.ok ((queryResult table c.reportregionname).map spProj),
         [MEvent.fetchAttempt 1]) := by
    simp [fetch_pending_sps, fetchLoop, hfetch]
  cases hL : (queryResult table c.reportregionname).map spProj with
  | nil => rw [hL] at hj; simp at hj
  | cons u us =>
      rw [hL] at hj
      have hrun : mainRun c store fstore engine
          = ((mainLoop c store engine (u :: us) 0
                (update_audit_log store c.reportregionname "InProgress" none none true 0).2.1
                ⟨none, none⟩).1,
             (update_audit_log store c.reportregionname "InProgress" none none true 0).2.2
              ++ [MEvent.fetchAttempt 1]
              ++ (mainLoop c store engine (u :: us) 0
                  (update_audit_log store c.reportregionname "InProgress" none none true 0).2.1
                  ⟨none, none⟩).2) := by
        simp [mainRun, hf, hL]
      constructor
      · intro ee he
        rw [hrun] at he
        simp only [List.mem_append] at he
        rcases he with (he | he) | he
        · exact update_audit_log_no_exec _ _ _ _ _ _ _ _ _ he
        · simp at he
        · obtain ⟨off, h1, h2, h3⟩ := mainLoop_exec_mem c store engine (u :: us) 0 _ _ j ee he
          have hsucc := h3 i (by omega)
          rw [show (0 : Nat) + i = i from by omega] at hsucc
          rw [hsucc] at hfail
          exact Bool.noConfusion hfail
      · obtain ⟨m, hm⟩ := mainLoop_fails c store engine (u :: us) 0
          (update_audit_log store c.reportregionname "InProgress" none none true 0).2.1
          ⟨none, none⟩ i (by omega)
          (by rw [show (0 : Nat) + i = i from by omega]; exact hfail)
        exact ⟨m, by rw [hrun]; exact hm⟩

/-- Witness for C1: a concrete two-unit work list with retry limit 1 where
unit 0 always fails terminally; unit 1 is never touched and the run errors
out. -/
theorem c1_fail_fast_witness :
    (∀ ee, MEvent.exec 1 ee ∉
      (mainRun ⟨"dev", "EMEA", "job", "http://r", "arn-ops", "arn-users", 1⟩
        (fun _ => StoreResult.ok)
        (fun _ => FetchOutcome.ok
          [⟨"SP_A", "SPDST", "EMEA", 1⟩, ⟨"SP_B", "SPDST", "EMEA", 2⟩])
        (fun _ _ => AttemptResult.term "FAILED" (some "ERROR: boom"))).2)
    ∧ (∃ m,
      (mainRun ⟨"dev", "EMEA", "job", "http://r", "arn-ops", "arn-users", 1⟩
        (fun _ => StoreResult.ok)
        (fun _ => FetchOutcome.ok
          [⟨"SP_A", "SPDST", "EMEA", 1⟩, ⟨"SP_B", "SPDST", "EMEA", 2⟩])
        (fun _ _ => AttemptResult.term "FAILED" (some "ERROR: boom"))).1 = Except.error m) :=
  c1_fail_fast ⟨"dev", "EMEA", "job", "http://r", "arn-ops", "arn-users", 1⟩
    (fun _ => StoreResult.ok)
    (fun _ => FetchOutcome.ok [⟨"SP_A", "SPDST", "EMEA", 1⟩, ⟨"SP_B", "SPDST", "EMEA", 2⟩])
    (fun _ _ => AttemptResult.term "FAILED" (some "ERROR: boom"))
    [⟨"SP_A", "SPDST", "EMEA", 1⟩, ⟨"SP_B", "SPDST", "EMEA", 2⟩] 0 1
    rfl (by decide) (by decide) (by decide)

/-- Concrete run with an empty work list used to refute C6. -/
def run6 : Except String Bool × List MEvent :=
  mainRun ⟨"dev", "EMEA", "job6", "http://report", "arn-ops", "arn-users", 3⟩
    (fun _ => StoreResult.ok) (fun _ => FetchOutcome.ok [])
    (fun _ _ => AttemptResult.term "FINISHED" none)

/-- C6 counterexample.  In a concrete run whose fetched work list is empty
(audit store and engine fully healthy), `main` returns success but the
trace contains no successful audit write recording completion — neither
`execution_status = 'Finished'` nor `status = 'Completed'` is ever written:
the empty-list early return at lines 326-329 skips `update_audit_log`
entirely, so the audit row keeps its initial `InProgress` state. -/
theorem c6_counterexample :
    run6.1 = Except.ok true
    ∧ run6.2.countP isCompletionWrite = 0
    ∧ run6.2 = [MEvent.auditTry (AuditStmt.masterInitial "InProgress" "EMEA") true,
                MEvent.fetchAttempt 1,
                MEvent.statusPublish "arn-users" [],
                MEvent.successPublish "arn-users" "http://report"] :=
  ⟨rfl, rfl, rfl⟩

/-- C6 amended.  When the fetched work list is empty, `main` returns success
and sends the operator status notification plus exactly one user-facing
success notification and no failure notification — but it records no
completion in the audit store: no successful write with
`execution_status = 'Finished'` or `status = 'Completed'` occurs, and the
run-level audit row keeps the `InProgress` state from the initial write. -/
theorem c6_empty_worklist (c : Config) (store : Nat → StoreResult)
    (engine : Nat → Nat → AttemptResult) :
    (mainRun c store (fun _ => FetchOutcome.ok []) engine).1 = Except.ok true
    ∧ (mainRun c store (fun _ => FetchOutcome.ok []) engine).2.countP isSuccessPublish = 1
    ∧ (mainRun c store (fun _ => FetchOutcome.ok []) engine).2.countP isFailurePublish = 0
    ∧ (mainRun c store (fun _ => FetchOutcome.ok []) engine).2.countP isCompletionWrite = 0
    ∧ MEvent.successPublish c.users_sns_arn c.report_url
        ∈ (mainRun c store (fun _ => FetchOutcome.ok []) engine).2 := by
  have hf : fetch_pending_sps (fun _ => FetchOutcome.ok []) c.reportregionname
      = (Except.ok [], [MEvent.fetchAttempt 1]) := rfl
  have hrun : mainRun c store (fun _ => FetchOutcome.ok []) engine
      = (Except.ok true,
         (update_audit_log store c.reportregionname "InProgress" none none true 0).2.2
          ++ [MEvent.fetchAttempt 1]
          ++ send_sns_message (initSelfSnsArn c) c.report_url []) := by
    simp [mainRun, hf]
  have hz : ∀ p : MEvent → Bool,
      (∀ b, p (MEvent.auditTry (AuditStmt.masterInitial "InProgress"
          c.reportregionname) b) = false) →
      (∀ b em2, p (MEvent.auditTry (AuditStmt.triggerLog "None" em2
          c.reportregionname) b) = false) →
      (∀ b, p (MEvent.auditTry (AuditStmt.master "InProgress"
          c.reportregionname) b) = false) →
      (∀ n, p (MEvent.auditSleep n) = false) →
      (∀ m, p (MEvent.swallowLog m) = false) →
      (update_audit_log store c.reportregionname "InProgress" none none true 0).2.2.countP p
        = 0 := by
    intro p h1 h2 h3 h4 h5
    exact update_audit_log_countP_zero store c.reportregionname "InProgress" none none
      true 0 p h1 h2 h3 h4 h5
  refine ⟨by rw [hrun], ?_, ?_, ?_, ?_⟩
  · rw [hrun]
    simp only [List.countP_append]
    rw [hz isSuccessPublish (by intro b; cases b <;> rfl)
      (by intro b em2; cases b <;> rfl) (by intro b; cases b <;> rfl)
      (by intro n; rfl) (by intro m; rfl)]
    rfl
  · rw [hrun]
    simp only [List.countP_append]
    rw [hz isFailurePublish (by intro b; cases b <;> rfl)
      (by intro b em2; cases b <;> rfl) (by intro b; cases b <;> rfl)
      (by intro n; rfl) (by intro m; rfl)]
    rfl
  · rw [hrun]
    simp only [List.countP_append]
    rw [hz isCompletionWrite (by intro b; cases b <;> rfl)
      (by intro b em2; cases b <;> rfl) (by intro b; cases b <;> rfl)
      (by intro n; rfl) (by intro m; rfl)]
    rfl
  · rw [hrun]
    simp [send_sns_message, initSelfSnsArn]

/-- The scenario-A engine: the unit at position 0 (`SP_A`) reaches
`FINISHED` on its first attempt; the unit at position 1 (`SP_B`) reaches
the terminal status `FAILED` on every attempt with a fixed engine error. -/
def engine8 : Nat → Nat → AttemptResult := fun pos _ =>
  if pos = 0 then AttemptResult.term "FINISHED" none
  else AttemptResult.term "FAILED" (some "ERROR: SP_B failed: relation missing")

/-- Scenario A of the spec: work list `SP_A` (exec order 1), `SP_B` (exec
order 2), retry limit 3, healthy audit store. -/
def run8 : Except String Bool × List MEvent :=
  mainRun ⟨"dev", "EMEA", "job8", "http://report", "arn-ops", "arn-users", 3⟩
    (fun _ => StoreResult.ok)
    (fun _ => FetchOutcome.ok
      [⟨"SP_A", "SPDST", "EMEA", 1⟩, ⟨"SP_B", "SPDST", "EMEA", 2⟩])
    engine8

/-- C8 counterexample.  In scenario A the trace contains TWO failure
notifications, not one: after the failure publish naming `SP_B`, the
deliberate `raise` at line 345 is caught by `main`'s own catch-all handler
at line 353, which publishes a second, generic failure notification with
payload `["Unexpected error"]` — so "no extra failure notification is
sent" is false. -/
theorem c8_counterexample : run8.2.countP isFailurePublish = 2 := by
  decide

/-- C8 amended.  Scenario A plays out as the claim says except for a
duplicated failure path: the run terminates failed; the persisted trigger-log
error message is derived from `SP_B`'s last engine error (the text after its
first colon) and the master row is set to `Failed`; the first failure
notification names only `SP_B`; but one additional generic failure
notification (`["Unexpected error"]`) is published by the catch-all handler
(and the Failed audit writes are performed twice); `SP_A` is submitted
exactly once — never retried — and appears in no failure notification. -/
theorem c8_scenario_a :
    run8.1 = Except.error "SP SP_B failed; job terminating"
    ∧ MEvent.auditTry (AuditStmt.triggerLog "Failed"
        (afterFirstColon "ERROR: SP_B failed: relation missing") "EMEA") true ∈ run8.2
    ∧ MEvent.auditTry (AuditStmt.master "Failed" "EMEA") true ∈ run8.2
    ∧ run8.2.filter isFailurePublish
        = [MEvent.statusPublish "arn-users"
            [SnsItem.entry ⟨"SP_B", "ERROR: SP_B failed: relation missing", "SPDST", "EMEA"⟩],
           MEvent.statusPublish "arn-users" [SnsItem.text "Unexpected error"]]
    ∧ run8.2.countP (fun e => decide (e = MEvent.exec 0 (ExecEvent.submit "SP_A"))) = 1
    ∧ run8.2.countP (fun e => decide (e = MEvent.exec 1 (ExecEvent.submit "SP_B"))) = 3 := by
  refine ⟨rfl, by decide, by decide, by decide, by decide, by decide⟩

/-- C9.  `fetch_pending_sps` raises (returns `Except.error`) iff all three
of its attempts fail; when all three fail it sleeps `3s` after the first
failed attempt and `6s` after the second (`3s * attemptNumber` between
consecutive failed attempts) and raises after the third with no further
sleep; a success on attempt 1, 2 or 3 returns the projected rows of the
query — the table filtered by the WHERE clause and ordered ascending by
`exec_order` — and an empty result is returned as `Except.ok []`, a valid
non-error outcome. -/
theorem c9_fetch (store : Nat → FetchOutcome) (region : String) :
    ((∃ m, (fetch_pending_sps store region).1 = Except.error m)
      ↔ ((∃ m, store 1 = FetchOutcome.err m) ∧ (∃ m, store 2 = FetchOutcome.err m)
          ∧ (∃ m, store 3 = FetchOutcome.err m)))
    ∧ (∀ m1 m2 m3, store 1 = FetchOutcome.err m1 → store 2 = FetchOutcome.err m2 →
        store 3 = FetchOutcome.err m3 →
        fetch_pending_sps store region
          = (Except.error "RDS query failed after 3 attempts",
             [MEvent.fetchAttempt 1, MEvent.fetchSleep 3, MEvent.fetchAttempt 2,
              MEvent.fetchSleep 6, MEvent.fetchAttempt 3]))
    ∧ (∀ t, store 1 = FetchOutcome.ok t →
        fetch_pending_sps store region
          = (Except.ok ((queryResult t region).map spProj), [MEvent.fetchAttempt 1]))
    ∧ (∀ m1 t, store 1 = FetchOutcome.err m1 → store 2 = FetchOutcome.ok t →
        fetch_pending_sps store region
          = (Except.ok ((queryResult t region).map spProj),
             [MEvent.fetchAttempt 1, MEvent.fetchSleep 3, MEvent.fetchAttempt 2]))
    ∧ (∀ m1 m2 t, store 1 = FetchOutcome.err m1 → store 2 = FetchOutcome.err m2 →
        store 3 = FetchOutcome.ok t →
        fetch_pending_sps store region
          = (Except.ok ((queryResult t region).map spProj),
             [MEvent.fetchAttempt 1, MEvent.fetchSleep 3, MEvent.fetchAttempt 2,
              MEvent.fetchSleep 6, MEvent.fetchAttempt 3]))
    ∧ (∀ t, List.Sorted (fun a b => a.exec_order ≤ b.exec_order) (queryResult t region))
    ∧ (∀ t, store 1 = FetchOutcome.ok t → (queryResult t region).map spProj = [] →
        (fetch_pending_sps store region).1 = Except.ok []) := by
  refine ⟨?_, ?_, ?_, ?_, ?_, ?_, ?_⟩
  · cases h1 : store 1 with
    | ok t => simp [fetch_pending_sps, fetchLoop, h1]
    | err m1 =>
        cases h2 : store 2 with
        | ok t => simp [fetch_pending_sps, fetchLoop, h1, h2]
        | err m2 =>
            cases h3 : store 3 with
            | ok t => simp [fetch_pending_sps, fetchLoop, h1, h2, h3]
            | err m3 => simp [fetch_pending_sps, fetchLoop, h1, h2, h3]
  · intro m1 m2 m3 h1 h2 h3
    simp [fetch_pending_sps, fetchLoop, h1, h2, h3]
  · intro t h1
    simp [fetch_pending_sps, fetchLoop, h1]
  · intro m1 t h1 h2
    simp [fetch_pending_sps, fetchLoop, h1, h2]
  · intro m1 m2 t h1 h2 h3
    simp [fetch_pending_sps, fetchLoop, h1, h2, h3]
  · intro t
    letI : IsTotal SpRow (fun a b => a.exec_order ≤ b.exec_order) :=
      ⟨fun a b => Nat.le_total _ _⟩
    letI : IsTrans SpRow (fun a b => a.exec_order ≤ b.exec_order) :=
      ⟨fun a b d hab hbd => Nat.le_trans hab hbd⟩
    simp only [queryResult]
    exact List.sorted_insertionSort _ _
  · intro t h1 hempty
    simp [fetch_pending_sps, fetchLoop, h1, hempty]

/-- Witness for C9: with a store that fails all three attempts, the fetch
raises after attempts at times 1, 2, 3 with sleeps of 3 and 6 seconds
between them. -/
theorem c9_fetch_witness :
    fetch_pending_sps (fun _ => FetchOutcome.err "down") "EMEA"
      = (Except.error "RDS query failed after 3 attempts",
         [MEvent.fetchAttempt 1, MEvent.fetchSleep 3, MEvent.fetchAttempt 2,
          MEvent.fetchSleep 6, MEvent.fetchAttempt 3]) :=
  (c9_fetch (fun _ => FetchOutcome.err "down") "EMEA").2.1 "down" "down" "down" rfl rfl rfl

end ReportRefresh
